import Mathlib

/-!
Verification of the max aggregate accumulator of
`native-engine/datafusion-ext-plans/src/agg/max.rs` (struct `AggMax`,
accumulator `AggMaxAccum`).

Shallow embedding conventions:
* `ScalarValue` mirrors the datafusion `ScalarValue` variants that `max.rs`
  matches on, with one extra representable-but-unsupported variant
  (`TimestampMicrosecond`, timezone omitted) standing for the `other` arms.
* Machine integers `i8..i64`, dates and `i128` decimals are modelled as `Int`,
  `u8..u64` as `Nat`: the code only compares and copies them, so no wrap-around
  can occur.  Rust `f32`/`f64` are modelled by `Fp` (a rational or NaN), with
  the partial comparison `Fp.lt` that is `false` whenever a NaN is involved —
  comparison is the only float operation the code performs.
* Arrow arrays and builders are modelled as typed lists of optional values
  (`ColumnArray`); `values[0]` of the Rust slice parameter is passed directly.
* The accumulator state is its single field `partial : ScalarValue`; the
  `&mut self` methods become functions `ScalarValue → … → Except DFError
  ScalarValue`, mirroring datafusion's `Result`.
-/

/-- Model of a Rust `f32`/`f64` value: NaN or a (rational) number.  Only
comparison is ever applied to floats in `max.rs`. -/
inductive Fp where
  | nan : Fp
  | num : ℚ → Fp
deriving DecidableEq

/-- Rust `<` on floats: `false` whenever either operand is NaN, numeric order
otherwise. -/
def Fp.lt : Fp → Fp → Bool
  | Fp.num a, Fp.num b => decide (a < b)
  | _, _ => false

/-- Rust `<` on `Int` (models `i8..i64`, `i128`, date epochs). -/
def intLt (a b : Int) : Bool := decide (a < b)

/-- Rust `<` on `Nat` (models `u8..u64`). -/
def natLt (a b : Nat) : Bool := decide (a < b)

/-- Rust `<` on `bool`: `false < true`. -/
def boolLt (a b : Bool) : Bool := !a && b

/-- Rust `<` on `&str`: byte-lexicographic, which for UTF-8 coincides with
Lean's code-point lexicographic order. -/
def strLt (a b : String) : Bool := decide (a < b)

/-- The datafusion `DataType`s relevant to `AggMax`: the supported element
types, `Null`, plus `Timestamp` (representable as a scalar, unsupported by
max) and `Float16` (no `ScalarValue` representation in this datafusion
version). -/
inductive DataType where
  | Null
  | Boolean
  | Float32
  | Float64
  | Int8
  | Int16
  | Int32
  | Int64
  | UInt8
  | UInt16
  | UInt32
  | UInt64
  | Decimal128 (precision : Nat) (scale : Nat)
  | Utf8
  | Date32
  | Date64
  | Timestamp
  | Float16
deriving DecidableEq

/-- The datafusion `ScalarValue` variants `max.rs` matches on.  Every variant
except `Null` carries `Option` (`none` = SQL null); `Decimal128` also carries
its precision and scale.  `TimestampMicrosecond` (timezone omitted) stands for
the representable variants that fall into the `other =>` arms. -/
inductive ScalarValue where
  | Null
  | Boolean (v : Option Bool)
  | Float32 (v : Option Fp)
  | Float64 (v : Option Fp)
  | Int8 (v : Option Int)
  | Int16 (v : Option Int)
  | Int32 (v : Option Int)
  | Int64 (v : Option Int)
  | UInt8 (v : Option Nat)
  | UInt16 (v : Option Nat)
  | UInt32 (v : Option Nat)
  | UInt64 (v : Option Nat)
  | Decimal128 (v : Option Int) (precision : Nat) (scale : Nat)
  | Utf8 (v : Option String)
  | Date32 (v : Option Int)
  | Date64 (v : Option Int)
  | TimestampMicrosecond (v : Option Int)
deriving DecidableEq

/-- The `datafusion::error::DataFusionError` variants reachable from
`max.rs`: `NotImplemented` from the unsupported-type arms and from
`ScalarValue: TryFrom<DataType>`, `Internal` from `downcast_value!`. -/
inductive DFError where
  | NotImplemented (msg : String)
  | Internal (msg : String)
deriving DecidableEq

/-- Typed arrow arrays (and builders): per-row validity and value become a
list of optional values.  One constructor per array type `max.rs` downcasts
to. -/
inductive ColumnArray where
  | BooleanArray (data : List (Option Bool))
  | Float32Array (data : List (Option Fp))
  | Float64Array (data : List (Option Fp))
  | Int8Array (data : List (Option Int))
  | Int16Array (data : List (Option Int))
  | Int32Array (data : List (Option Int))
  | Int64Array (data : List (Option Int))
  | UInt8Array (data : List (Option Nat))
  | UInt16Array (data : List (Option Nat))
  | UInt32Array (data : List (Option Nat))
  | UInt64Array (data : List (Option Nat))
  | Decimal128Array (data : List (Option Int))
  | StringArray (data : List (Option String))
  | Date32Array (data : List (Option Int))
  | Date64Array (data : List (Option Int))
deriving DecidableEq

/-- Row access `value.is_valid(row_idx)` / `value.value(row_idx)` combined:
`some` the valid value, `none` a null entry.  The claims only use in-bounds
row indices. -/
def arrayGet {α : Type} (data : List (Option α)) (i : Nat) : Option α :=
  data.getD i none

/-- Models datafusion's `ScalarValue::is_null`: the variant's option is
absent (`Null` itself is null). -/
def ScalarValue.is_null : ScalarValue → Bool
  | .Null => true
  | .Boolean v => v.isNone
  | .Float32 v => v.isNone
  | .Float64 v => v.isNone
  | .Int8 v => v.isNone
  | .Int16 v => v.isNone
  | .Int32 v => v.isNone
  | .Int64 v => v.isNone
  | .UInt8 v => v.isNone
  | .UInt16 v => v.isNone
  | .UInt32 v => v.isNone
  | .UInt64 v => v.isNone
  | .Decimal128 v _ _ => v.isNone
  | .Utf8 v => v.isNone
  | .Date32 v => v.isNone
  | .Date64 v => v.isNone
  | .TimestampMicrosecond v => v.isNone

/-- Models datafusion's `ScalarValue::get_datatype`. -/
def ScalarValue.get_datatype : ScalarValue → DataType
  | .Null => .Null
  | .Boolean _ => .Boolean
  | .Float32 _ => .Float32
  | .Float64 _ => .Float64
  | .Int8 _ => .Int8
  | .Int16 _ => .Int16
  | .Int32 _ => .Int32
  | .Int64 _ => .Int64
  | .UInt8 _ => .UInt8
  | .UInt16 _ => .UInt16
  | .UInt32 _ => .UInt32
  | .UInt64 _ => .UInt64
  | .Decimal128 _ p s => .Decimal128 p s
  | .Utf8 _ => .Utf8
  | .Date32 _ => .Date32
  | .Date64 _ => .Date64
  | .TimestampMicrosecond _ => .Timestamp

/-- Models datafusion's `Display` for `ScalarValue` as used by the
`format!("unsupported data type in max(): {}", other)` arms: an absent value
prints `NULL`, a present value prints bare.  (Float rendering differs from
Rust's but the code never reaches the error arms with a float state.) -/
def displayFp : Fp → String
  | Fp.nan => "NaN"
  | Fp.num q => toString q

/-- Datafusion `Display` helper: `format_option!`. -/
def displayOption {α : Type} (f : α → String) : Option α → String
  | none => "NULL"
  | some v => f v

/-- Datafusion `Display` for `ScalarValue` (value rendering, `NULL` for an
absent value). -/
def displayScalar : ScalarValue → String
  | .Null => "NULL"
  | .Boolean v => displayOption toString v
  | .Float32 v => displayOption displayFp v
  | .Float64 v => displayOption displayFp v
  | .Int8 v => displayOption toString v
  | .Int16 v => displayOption toString v
  | .Int32 v => displayOption toString v
  | .Int64 v => displayOption toString v
  | .UInt8 v => displayOption toString v
  | .UInt16 v => displayOption toString v
  | .UInt32 v => displayOption toString v
  | .UInt64 v => displayOption toString v
  | .Decimal128 v _ _ => displayOption toString v
  | .Utf8 v => displayOption id v
  | .Date32 v => displayOption toString v
  | .Date64 v => displayOption toString v
  | .TimestampMicrosecond v => displayOption toString v

/-- The error text of the `other =>` arms of `partial_update`,
`partial_update_all` and `partial_merge_scalar`. -/
def unsupportedMaxError (other : ScalarValue) : DFError :=
  DFError.NotImplemented ("unsupported data type in max(): " ++ displayScalar other)

/-- Models `downcast_value!(values[0], BooleanArray)`: the typed data or a
`DataFusionError::Internal`. -/
def downcastBooleanArray : ColumnArray → Except DFError (List (Option Bool))
  | ColumnArray.BooleanArray d => Except.ok d
  | _ => Except.error (DFError.Internal "could not cast value to BooleanArray")

/-- Models `downcast_value!(values[0], Float32Array)`. -/
def downcastFloat32Array : ColumnArray → Except DFError (List (Option Fp))
  | ColumnArray.Float32Array d => Except.ok d
  | _ => Except.error (DFError.Internal "could not cast value to Float32Array")

/-- Models `downcast_value!(values[0], Float64Array)`. -/
def downcastFloat64Array : ColumnArray → Except DFError (List (Option Fp))
  | ColumnArray.Float64Array d => Except.ok d
  | _ => Except.error (DFError.Internal "could not cast value to Float64Array")

/-- Models `downcast_value!(values[0], Int8Array)`. -/
def downcastInt8Array : ColumnArray → Except DFError (List (Option Int))
  | ColumnArray.Int8Array d => Except.ok d
  | _ => Except.error (DFError.Internal "could not cast value to Int8Array")

/-- Models `downcast_value!(values[0], Int16Array)`. -/
def downcastInt16Array : ColumnArray → Except DFError (List (Option Int))
  | ColumnArray.Int16Array d => Except.ok d
  | _ => Except.error (DFError.Internal "could not cast value to Int16Array")

/-- Models `downcast_value!(values[0], Int32Array)`. -/
def downcastInt32Array : ColumnArray → Except DFError (List (Option Int))
  | ColumnArray.Int32Array d => Except.ok d
  | _ => Except.error (DFError.Internal "could not cast value to Int32Array")

/-- Models `downcast_value!(values[0], Int64Array)`. -/
def downcastInt64Array : ColumnArray → Except DFError (List (Option Int))
  | ColumnArray.Int64Array d => Except.ok d
  | _ => Except.error (DFError.Internal "could not cast value to Int64Array")

/-- Models `downcast_value!(values[0], UInt8Array)`. -/
def downcastUInt8Array : ColumnArray → Except DFError (List (Option Nat))
  | ColumnArray.UInt8Array d => Except.ok d
  | _ => Except.error (DFError.Internal "could not cast value to UInt8Array")

/-- Models `downcast_value!(values[0], UInt16Array)`. -/
def downcastUInt16Array : ColumnArray → Except DFError (List (Option Nat))
  | ColumnArray.UInt16Array d => Except.ok d
  | _ => Except.error (DFError.Internal "could not cast value to UInt16Array")

/-- Models `downcast_value!(values[0], UInt32Array)`. -/
def downcastUInt32Array : ColumnArray → Except DFError (List (Option Nat))
  | ColumnArray.UInt32Array d => Except.ok d
  | _ => Except.error (DFError.Internal "could not cast value to UInt32Array")

/-- Models `downcast_value!(values[0], UInt64Array)`. -/
def downcastUInt64Array : ColumnArray → Except DFError (List (Option Nat))
  | ColumnArray.UInt64Array d => Except.ok d
  | _ => Except.error (DFError.Internal "could not cast value to UInt64Array")

/-- Models `downcast_value!(values[0], Decimal128Array)`. -/
def downcastDecimal128Array : ColumnArray → Except DFError (List (Option Int))
  | ColumnArray.Decimal128Array d => Except.ok d
  | _ => Except.error (DFError.Internal "could not cast value to Decimal128Array")

/-- Models `downcast_value!(values[0], StringArray)`. -/
def downcastStringArray : ColumnArray → Except DFError (List (Option String))
  | ColumnArray.StringArray d => Except.ok d
  | _ => Except.error (DFError.Internal "could not cast value to StringArray")

/-- Models `downcast_value!(values[0], Date32Array)`. -/
def downcastDate32Array : ColumnArray → Except DFError (List (Option Int))
  | ColumnArray.Date32Array d => Except.ok d
  | _ => Except.error (DFError.Internal "could not cast value to Date32Array")

/-- Models `downcast_value!(values[0], Date64Array)`. -/
def downcastDate64Array : ColumnArray → Except DFError (List (Option Int))
  | ColumnArray.Date64Array d => Except.ok d
  | _ => Except.error (DFError.Internal "could not cast value to Date64Array")

/-- Models datafusion's `ScalarValue: TryFrom<DataType>`: the null scalar of
the given declared type, or `NotImplemented` for a type with no `ScalarValue`
representation in this datafusion version (modelled by `Float16`). -/
def DataType.try_into_scalar : DataType → Except DFError ScalarValue
  | .Null => Except.ok ScalarValue.Null
  | .Boolean => Except.ok (ScalarValue.Boolean none)
  | .Float32 => Except.ok (ScalarValue.Float32 none)
  | .Float64 => Except.ok (ScalarValue.Float64 none)
  | .Int8 => Except.ok (ScalarValue.Int8 none)
  | .Int16 => Except.ok (ScalarValue.Int16 none)
  | .Int32 => Except.ok (ScalarValue.Int32 none)
  | .Int64 => Except.ok (ScalarValue.Int64 none)
  | .UInt8 => Except.ok (ScalarValue.UInt8 none)
  | .UInt16 => Except.ok (ScalarValue.UInt16 none)
  | .UInt32 => Except.ok (ScalarValue.UInt32 none)
  | .UInt64 => Except.ok (ScalarValue.UInt64 none)
  | .Decimal128 p s => Except.ok (ScalarValue.Decimal128 none p s)
  | .Utf8 => Except.ok (ScalarValue.Utf8 none)
  | .Date32 => Except.ok (ScalarValue.Date32 none)
  | .Date64 => Except.ok (ScalarValue.Date64 none)
  | .Timestamp => Except.ok (ScalarValue.TimestampMicrosecond none)
  | .Float16 =>
      Except.error (DFError.NotImplemented "Can't create a scalar from data_type Float16")

/-- Models `AggMax::create_accum`: `Ok(Box::new(AggMaxAccum { partial:
self.data_type.clone().try_into()? }))` — the accumulator is its `partial`
scalar. -/
def create_accum (data_type : DataType) : Except DFError ScalarValue :=
  data_type.try_into_scalar

/-- Models the `handle!` macro body of `AggMaxAccum::partial_update`: when the
row value is valid, `if partial.is_none() || new < partial.unwrap() { partial
= Some(new) }` — note the comparison direction is `new < current`. -/
def update_handle {α : Type} (lt : α → α → Bool) (pv : Option α) (row : Option α) :
    Option α :=
  match row with
  | none => pv
  | some new =>
      match pv with
      | none => some new
      | some cur => if lt new cur then some new else some cur

/-- Models `AggMaxAccum::partial_update(&mut self, values, row_idx)`; `values`
is `values[0]`, the state is returned.  The `Utf8` arm compares with `new >
current` (unlike the numeric macro's `new < current`); the `Decimal128` arm
repeats the macro body verbatim in the source. -/
def partial_update (self : ScalarValue) (values : ColumnArray) (row_idx : Nat) :
    Except DFError ScalarValue :=
  match self with
  | .Null => Except.ok ScalarValue.Null
  | .Boolean v => do
      let value ← downcastBooleanArray values
      Except.ok (ScalarValue.Boolean (update_handle boolLt v (arrayGet value row_idx)))
  | .Float32 v => do
      let value ← downcastFloat32Array values
      Except.ok (ScalarValue.Float32 (update_handle Fp.lt v (arrayGet value row_idx)))
  | .Float64 v => do
      let value ← downcastFloat64Array values
      Except.ok (ScalarValue.Float64 (update_handle Fp.lt v (arrayGet value row_idx)))
  | .Int8 v => do
      let value ← downcastInt8Array values
      Except.ok (ScalarValue.Int8 (update_handle intLt v (arrayGet value row_idx)))
  | .Int16 v => do
      let value ← downcastInt16Array values
      Except.ok (ScalarValue.Int16 (update_handle intLt v (arrayGet value row_idx)))
  | .Int32 v => do
      let value ← downcastInt32Array values
      Except.ok (ScalarValue.Int32 (update_handle intLt v (arrayGet value row_idx)))
  | .Int64 v => do
      let value ← downcastInt64Array values
      Except.ok (ScalarValue.Int64 (update_handle intLt v (arrayGet value row_idx)))
  | .UInt8 v => do
      let value ← downcastUInt8Array values
      Except.ok (ScalarValue.UInt8 (update_handle natLt v (arrayGet value row_idx)))
  | .UInt16 v => do
      let value ← downcastUInt16Array values
      Except.ok (ScalarValue.UInt16 (update_handle natLt v (arrayGet value row_idx)))
  | .UInt32 v => do
      let value ← downcastUInt32Array values
      Except.ok (ScalarValue.UInt32 (update_handle natLt v (arrayGet value row_idx)))
  | .UInt64 v => do
      let value ← downcastUInt64Array values
      Except.ok (ScalarValue.UInt64 (update_handle natLt v (arrayGet value row_idx)))
  | .Decimal128 v p s => do
      let value ← downcastDecimal128Array values
      Except.ok (ScalarValue.Decimal128 (update_handle intLt v (arrayGet value row_idx)) p s)
  | .Utf8 v => do
      let value ← downcastStringArray values
      match arrayGet value row_idx with
      | none => Except.ok (ScalarValue.Utf8 v)
      | some new =>
          match v with
          | none => Except.ok (ScalarValue.Utf8 (some new))
          | some cur =>
              if strLt cur new then Except.ok (ScalarValue.Utf8 (some new))
              else Except.ok (ScalarValue.Utf8 (some cur))
  | .Date32 v => do
      let value ← downcastDate32Array values
      Except.ok (ScalarValue.Date32 (update_handle intLt v (arrayGet value row_idx)))
  | .Date64 v => do
      let value ← downcastDate64Array values
      Except.ok (ScalarValue.Date64 (update_handle intLt v (arrayGet value row_idx)))
  | other => Except.error (unsupportedMaxError other)

/-- One step of arrow's `min_max_helper`: skip a null entry, otherwise
replace the running value `n` by the item `w` when `n < w`. -/
def arrow_max_step {α : Type} (lt : α → α → Bool) (acc item : Option α) : Option α :=
  match item with
  | none => acc
  | some w =>
      match acc with
      | none => some w
      | some n => if lt n w then some w else some n

/-- Models `arrow::compute::max` (also `max_boolean`, `max_string`): the
running maximum over the valid entries; `none` when the column has no valid
entry. -/
def arrow_max {α : Type} (lt : α → α → Bool) (data : List (Option α)) : Option α :=
  data.foldl (arrow_max_step lt) none

/-- Models the `handle!` macro body of `AggMaxAccum::partial_update_all`: when
the column maximum `w` exists, `if partial.is_none() || partial.unwrap() < w {
partial = Some(w) }`. -/
def update_all_handle {α : Type} (lt : α → α → Bool) (pv w_opt : Option α) : Option α :=
  match w_opt with
  | none => pv
  | some w =>
      match pv with
      | none => some w
      | some cur => if lt cur w then some w else some cur

/-- Models `AggMaxAccum::partial_update_all(&mut self, values)`; `values` is
`values[0]`.  The `Boolean` arm's guard `v.is_none() || !v.unwrap() & w` is
exactly `update_all_handle boolLt`. -/
def partial_update_all (self : ScalarValue) (values : ColumnArray) :
    Except DFError ScalarValue :=
  match self with
  | .Null => Except.ok ScalarValue.Null
  | .Boolean v => do
      let value ← downcastBooleanArray values
      Except.ok (ScalarValue.Boolean (update_all_handle boolLt v (arrow_max boolLt value)))
  | .Float32 v => do
      let value ← downcastFloat32Array values
      Except.ok (ScalarValue.Float32 (update_all_handle Fp.lt v (arrow_max Fp.lt value)))
  | .Float64 v => do
      let value ← downcastFloat64Array values
      Except.ok (ScalarValue.Float64 (update_all_handle Fp.lt v (arrow_max Fp.lt value)))
  | .Int8 v => do
      let value ← downcastInt8Array values
      Except.ok (ScalarValue.Int8 (update_all_handle intLt v (arrow_max intLt value)))
  | .Int16 v => do
      let value ← downcastInt16Array values
      Except.ok (ScalarValue.Int16 (update_all_handle intLt v (arrow_max intLt value)))
  | .Int32 v => do
      let value ← downcastInt32Array values
      Except.ok (ScalarValue.Int32 (update_all_handle intLt v (arrow_max intLt value)))
  | .Int64 v => do
      let value ← downcastInt64Array values
      Except.ok (ScalarValue.Int64 (update_all_handle intLt v (arrow_max intLt value)))
  | .UInt8 v => do
      let value ← downcastUInt8Array values
      Except.ok (ScalarValue.UInt8 (update_all_handle natLt v (arrow_max natLt value)))
  | .UInt16 v => do
      let value ← downcastUInt16Array values
      Except.ok (ScalarValue.UInt16 (update_all_handle natLt v (arrow_max natLt value)))
  | .UInt32 v => do
      let value ← downcastUInt32Array values
      Except.ok (ScalarValue.UInt32 (update_all_handle natLt v (arrow_max natLt value)))
  | .UInt64 v => do
      let value ← downcastUInt64Array values
      Except.ok (ScalarValue.UInt64 (update_all_handle natLt v (arrow_max natLt value)))
  | .Decimal128 v p s => do
      let value ← downcastDecimal128Array values
      Except.ok
        (ScalarValue.Decimal128 (update_all_handle intLt v (arrow_max intLt value)) p s)
  | .Utf8 v => do
      let value ← downcastStringArray values
      Except.ok (ScalarValue.Utf8 (update_all_handle strLt v (arrow_max strLt value)))
  | .Date32 v => do
      let value ← downcastDate32Array values
      Except.ok (ScalarValue.Date32 (update_all_handle intLt v (arrow_max intLt value)))
  | .Date64 v => do
      let value ← downcastDate64Array values
      Except.ok (ScalarValue.Date64 (update_all_handle intLt v (arrow_max intLt value)))
  | other => Except.error (unsupportedMaxError other)

/-- Models the `handle!` macro body of `AggMaxAccum::partial_merge_scalar`:
`if b.unwrap() > a.unwrap() { *a = b }`.  Both options are `some` whenever
this is reached (guarded by the `is_null` checks); the catch-all arm is dead
code standing for the `unwrap`s. -/
def merge_handle {α : Type} (lt : α → α → Bool) (a b : Option α) : Option α :=
  match a, b with
  | some av, some bv => if lt av bv then some bv else some av
  | _, _ => a

/-- Models `AggMaxAccum::partial_merge_scalar(&mut self, another_value)`:
early return when `another_value` is null; adopt `another_value` wholesale
when `self.partial` is null; otherwise per-type `handle!` — with **no
`Boolean` arm**, so two non-null booleans fall into the `(other, _)` error
arm. -/
def partial_merge_scalar (self another_value : ScalarValue) :
    Except DFError ScalarValue :=
  if another_value.is_null then Except.ok self
  else if self.is_null then Except.ok another_value
  else
    match self, another_value with
    | .Float32 a, .Float32 b => Except.ok (ScalarValue.Float32 (merge_handle Fp.lt a b))
    | .Float64 a, .Float64 b => Except.ok (ScalarValue.Float64 (merge_handle Fp.lt a b))
    | .Int8 a, .Int8 b => Except.ok (ScalarValue.Int8 (merge_handle intLt a b))
    | .Int16 a, .Int16 b => Except.ok (ScalarValue.Int16 (merge_handle intLt a b))
    | .Int32 a, .Int32 b => Except.ok (ScalarValue.Int32 (merge_handle intLt a b))
    | .Int64 a, .Int64 b => Except.ok (ScalarValue.Int64 (merge_handle intLt a b))
    | .UInt8 a, .UInt8 b => Except.ok (ScalarValue.UInt8 (merge_handle natLt a b))
    | .UInt16 a, .UInt16 b => Except.ok (ScalarValue.UInt16 (merge_handle natLt a b))
    | .UInt32 a, .UInt32 b => Except.ok (ScalarValue.UInt32 (merge_handle natLt a b))
    | .UInt64 a, .UInt64 b => Except.ok (ScalarValue.UInt64 (merge_handle natLt a b))
    | .Decimal128 a p s, .Decimal128 b _ _ =>
        Except.ok (ScalarValue.Decimal128 (merge_handle intLt a b) p s)
    | .Utf8 a, .Utf8 b => Except.ok (ScalarValue.Utf8 (merge_handle strLt a b))
    | .Date32 a, .Date32 b => Except.ok (ScalarValue.Date32 (merge_handle intLt a b))
    | .Date64 a, .Date64 b => Except.ok (ScalarValue.Date64 (merge_handle intLt a b))
    | other, _ => Except.error (unsupportedMaxError other)

/-- Modelled from the spec: `load_scalar` (defined in `agg/mod.rs`, which is
not among the provided sources) "deserializes one partial-state value (by the
rules of the accum field's type) into a transient Scalar Value": the scalar
keeps its variant (and, for decimals, its precision/scale) and takes the
column's optional value at the row index; a column of mismatched type is an
error. -/
def load_scalar (scalar : ScalarValue) (values : ColumnArray) (row_idx : Nat) :
    Except DFError ScalarValue :=
  match scalar with
  | .Null => Except.ok ScalarValue.Null
  | .Boolean _ => do
      let d ← downcastBooleanArray values
      Except.ok (ScalarValue.Boolean (arrayGet d row_idx))
  | .Float32 _ => do
      let d ← downcastFloat32Array values
      Except.ok (ScalarValue.Float32 (arrayGet d row_idx))
  | .Float64 _ => do
      let d ← downcastFloat64Array values
      Except.ok (ScalarValue.Float64 (arrayGet d row_idx))
  | .Int8 _ => do
      let d ← downcastInt8Array values
      Except.ok (ScalarValue.Int8 (arrayGet d row_idx))
  | .Int16 _ => do
      let d ← downcastInt16Array values
      Except.ok (ScalarValue.Int16 (arrayGet d row_idx))
  | .Int32 _ => do
      let d ← downcastInt32Array values
      Except.ok (ScalarValue.Int32 (arrayGet d row_idx))
  | .Int64 _ => do
      let d ← downcastInt64Array values
      Except.ok (ScalarValue.Int64 (arrayGet d row_idx))
  | .UInt8 _ => do
      let d ← downcastUInt8Array values
      Except.ok (ScalarValue.UInt8 (arrayGet d row_idx))
  | .UInt16 _ => do
      let d ← downcastUInt16Array values
      Except.ok (ScalarValue.UInt16 (arrayGet d row_idx))
  | .UInt32 _ => do
      let d ← downcastUInt32Array values
      Except.ok (ScalarValue.UInt32 (arrayGet d row_idx))
  | .UInt64 _ => do
      let d ← downcastUInt64Array values
      Except.ok (ScalarValue.UInt64 (arrayGet d row_idx))
  | .Decimal128 _ p s => do
      let d ← downcastDecimal128Array values
      Except.ok (ScalarValue.Decimal128 (arrayGet d row_idx) p s)
  | .Utf8 _ => do
      let d ← downcastStringArray values
      Except.ok (ScalarValue.Utf8 (arrayGet d row_idx))
  | .Date32 _ => do
      let d ← downcastDate32Array values
      Except.ok (ScalarValue.Date32 (arrayGet d row_idx))
  | .Date64 _ => do
      let d ← downcastDate64Array values
      Except.ok (ScalarValue.Date64 (arrayGet d row_idx))
  | other => Except.error (unsupportedMaxError other)

/-- Modelled from the spec: `save_scalar` (defined in `agg/mod.rs`, which is
not among the provided sources) "appends the current state (value or null)
into an output column builder"; builders are modelled as typed columns, a
builder of mismatched type is an error. -/
def save_scalar (scalar : ScalarValue) (builder : ColumnArray) :
    Except DFError ColumnArray :=
  match scalar, builder with
  | .Boolean v, ColumnArray.BooleanArray d => Except.ok (ColumnArray.BooleanArray (d ++ [v]))
  | .Float32 v, ColumnArray.Float32Array d => Except.ok (ColumnArray.Float32Array (d ++ [v]))
  | .Float64 v, ColumnArray.Float64Array d => Except.ok (ColumnArray.Float64Array (d ++ [v]))
  | .Int8 v, ColumnArray.Int8Array d => Except.ok (ColumnArray.Int8Array (d ++ [v]))
  | .Int16 v, ColumnArray.Int16Array d => Except.ok (ColumnArray.Int16Array (d ++ [v]))
  | .Int32 v, ColumnArray.Int32Array d => Except.ok (ColumnArray.Int32Array (d ++ [v]))
  | .Int64 v, ColumnArray.Int64Array d => Except.ok (ColumnArray.Int64Array (d ++ [v]))
  | .UInt8 v, ColumnArray.UInt8Array d => Except.ok (ColumnArray.UInt8Array (d ++ [v]))
  | .UInt16 v, ColumnArray.UInt16Array d => Except.ok (ColumnArray.UInt16Array (d ++ [v]))
  | .UInt32 v, ColumnArray.UInt32Array d => Except.ok (ColumnArray.UInt32Array (d ++ [v]))
  | .UInt64 v, ColumnArray.UInt64Array d => Except.ok (ColumnArray.UInt64Array (d ++ [v]))
  | .Decimal128 v _ _, ColumnArray.Decimal128Array d =>
      Except.ok (ColumnArray.Decimal128Array (d ++ [v]))
  | .Utf8 v, ColumnArray.StringArray d => Except.ok (ColumnArray.StringArray (d ++ [v]))
  | .Date32 v, ColumnArray.Date32Array d => Except.ok (ColumnArray.Date32Array (d ++ [v]))
  | .Date64 v, ColumnArray.Date64Array d => Except.ok (ColumnArray.Date64Array (d ++ [v]))
  | _, _ => Except.error (DFError.Internal "builder type does not match the scalar")

/-- Models `AggMaxAccum::partial_merge_from_array`: build the null scalar of
`self.partial`'s data type, `load_scalar` it from the partial-aggregate column
at the row, and `partial_merge_scalar` it in. -/
def partial_merge_from_array (self : ScalarValue) (partial_agg_values : ColumnArray)
    (row_idx : Nat) : Except DFError ScalarValue := do
  let scalar ← self.get_datatype.try_into_scalar
  let scalar ← load_scalar scalar partial_agg_values row_idx
  partial_merge_scalar self scalar

/-- Folding the row-wise `partial_update` over a list of row indices (how the
group-by operator drives the accumulator row by row). -/
def updateRows (self : ScalarValue) (values : ColumnArray) (rows : List Nat) :
    Except DFError ScalarValue :=
  rows.foldlM (fun acc i => partial_update acc values i) self

/-- The element types the max aggregate supports: every `ScalarValue` variant
with its own arm in `partial_update` / `partial_update_all`, i.e. all variants
except `Null` and the `other =>` ones. -/
def ScalarValue.isSupportedType : ScalarValue → Bool
  | .Boolean _ => true
  | .Float32 _ => true
  | .Float64 _ => true
  | .Int8 _ => true
  | .Int16 _ => true
  | .Int32 _ => true
  | .Int64 _ => true
  | .UInt8 _ => true
  | .UInt16 _ => true
  | .UInt32 _ => true
  | .UInt64 _ => true
  | .Decimal128 _ _ _ => true
  | .Utf8 _ => true
  | .Date32 _ => true
  | .Date64 _ => true
  | _ => false

/-- The variants with their own arm in `partial_merge_scalar`'s match: the
supported types minus `Boolean` (which has no merge arm in the source). -/
def ScalarValue.hasMergeArm : ScalarValue → Bool
  | .Boolean _ => false
  | s => s.isSupportedType

/-- No held float value is NaN (trivially true for non-float variants). -/
def ScalarValue.noNaN : ScalarValue → Bool
  | .Float32 (some Fp.nan) => false
  | .Float64 (some Fp.nan) => false
  | _ => true

/-- The column type matching a state variant (the caller contract of the
update paths). -/
def colTypeMatches : ScalarValue → ColumnArray → Bool
  | .Boolean _, ColumnArray.BooleanArray _ => true
  | .Float32 _, ColumnArray.Float32Array _ => true
  | .Float64 _, ColumnArray.Float64Array _ => true
  | .Int8 _, ColumnArray.Int8Array _ => true
  | .Int16 _, ColumnArray.Int16Array _ => true
  | .Int32 _, ColumnArray.Int32Array _ => true
  | .Int64 _, ColumnArray.Int64Array _ => true
  | .UInt8 _, ColumnArray.UInt8Array _ => true
  | .UInt16 _, ColumnArray.UInt16Array _ => true
  | .UInt32 _, ColumnArray.UInt32Array _ => true
  | .UInt64 _, ColumnArray.UInt64Array _ => true
  | .Decimal128 _ _ _, ColumnArray.Decimal128Array _ => true
  | .Utf8 _, ColumnArray.StringArray _ => true
  | .Date32 _, ColumnArray.Date32Array _ => true
  | .Date64 _, ColumnArray.Date64Array _ => true
  | _, _ => false

/-- Every entry of the column is null. -/
def colAllNull : ColumnArray → Bool
  | ColumnArray.BooleanArray d => d.all Option.isNone
  | ColumnArray.Float32Array d => d.all Option.isNone
  | ColumnArray.Float64Array d => d.all Option.isNone
  | ColumnArray.Int8Array d => d.all Option.isNone
  | ColumnArray.Int16Array d => d.all Option.isNone
  | ColumnArray.Int32Array d => d.all Option.isNone
  | ColumnArray.Int64Array d => d.all Option.isNone
  | ColumnArray.UInt8Array d => d.all Option.isNone
  | ColumnArray.UInt16Array d => d.all Option.isNone
  | ColumnArray.UInt32Array d => d.all Option.isNone
  | ColumnArray.UInt64Array d => d.all Option.isNone
  | ColumnArray.Decimal128Array d => d.all Option.isNone
  | ColumnArray.StringArray d => d.all Option.isNone
  | ColumnArray.Date32Array d => d.all Option.isNone
  | ColumnArray.Date64Array d => d.all Option.isNone

/-- Appending a null entry to a builder (what the external builder does when
`save_final` saves an `Empty` state). -/
def appendNull : ColumnArray → ColumnArray
  | ColumnArray.BooleanArray d => ColumnArray.BooleanArray (d ++ [none])
  | ColumnArray.Float32Array d => ColumnArray.Float32Array (d ++ [none])
  | ColumnArray.Float64Array d => ColumnArray.Float64Array (d ++ [none])
  | ColumnArray.Int8Array d => ColumnArray.Int8Array (d ++ [none])
  | ColumnArray.Int16Array d => ColumnArray.Int16Array (d ++ [none])
  | ColumnArray.Int32Array d => ColumnArray.Int32Array (d ++ [none])
  | ColumnArray.Int64Array d => ColumnArray.Int64Array (d ++ [none])
  | ColumnArray.UInt8Array d => ColumnArray.UInt8Array (d ++ [none])
  | ColumnArray.UInt16Array d => ColumnArray.UInt16Array (d ++ [none])
  | ColumnArray.UInt32Array d => ColumnArray.UInt32Array (d ++ [none])
  | ColumnArray.UInt64Array d => ColumnArray.UInt64Array (d ++ [none])
  | ColumnArray.Decimal128Array d => ColumnArray.Decimal128Array (d ++ [none])
  | ColumnArray.StringArray d => ColumnArray.StringArray (d ++ [none])
  | ColumnArray.Date32Array d => ColumnArray.Date32Array (d ++ [none])
  | ColumnArray.Date64Array d => ColumnArray.Date64Array (d ++ [none])

/-- The fresh (empty) builder for a declared type, as the engine creates it
from `accum_fields()`; `none` for a type without a builder here. -/
def empty_builder : DataType → Option ColumnArray
  | DataType.Boolean => some (ColumnArray.BooleanArray [])
  | DataType.Float32 => some (ColumnArray.Float32Array [])
  | DataType.Float64 => some (ColumnArray.Float64Array [])
  | DataType.Int8 => some (ColumnArray.Int8Array [])
  | DataType.Int16 => some (ColumnArray.Int16Array [])
  | DataType.Int32 => some (ColumnArray.Int32Array [])
  | DataType.Int64 => some (ColumnArray.Int64Array [])
  | DataType.UInt8 => some (ColumnArray.UInt8Array [])
  | DataType.UInt16 => some (ColumnArray.UInt16Array [])
  | DataType.UInt32 => some (ColumnArray.UInt32Array [])
  | DataType.UInt64 => some (ColumnArray.UInt64Array [])
  | DataType.Decimal128 _ _ => some (ColumnArray.Decimal128Array [])
  | DataType.Utf8 => some (ColumnArray.StringArray [])
  | DataType.Date32 => some (ColumnArray.Date32Array [])
  | DataType.Date64 => some (ColumnArray.Date64Array [])
  | _ => none

/-- The precision component of a `Decimal128` state. -/
def decimalPrecision : ScalarValue → Option Nat
  | ScalarValue.Decimal128 _ p _ => some p
  | _ => none

/-- The scale component of a `Decimal128` state. -/
def decimalScale : ScalarValue → Option Nat
  | ScalarValue.Decimal128 _ _ s => some s
  | _ => none

/-- One accumulator call, for stating invariants over arbitrary operation
sequences. -/
inductive AggOp where
  | update (values : ColumnArray) (row_idx : Nat)
  | updateAll (values : ColumnArray)
  | mergeScalar (another : ScalarValue)
  | mergeFromArray (values : ColumnArray) (row_idx : Nat)

/-- Dispatch one accumulator call (`partial_merge` itself just unboxes the
other accumulator and calls `partial_merge_scalar`). -/
def runOp (self : ScalarValue) : AggOp → Except DFError ScalarValue
  | AggOp.update values i => partial_update self values i
  | AggOp.updateAll values => partial_update_all self values
  | AggOp.mergeScalar a => partial_merge_scalar self a
  | AggOp.mergeFromArray values i => partial_merge_from_array self values i

/-- Run a sequence of accumulator calls, stopping at the first error. -/
def runOps (self : ScalarValue) (ops : List AggOp) : Except DFError ScalarValue :=
  ops.foldlM runOp self

/-- The engine-level invariant on one call against a decimal accumulator of
precision `p` and scale `s`: a merged-in scalar is null or a decimal carrying
the same precision and scale.  Update calls carry no constraint. -/
def decimalOpOk (p s : Nat) : AggOp → Bool
  | AggOp.mergeScalar a =>
      a.is_null ||
        (match a with
         | ScalarValue.Decimal128 _ p2 s2 => p2 == p && s2 == s
         | _ => false)
  | _ => true

/-- The state-combination that `partial_merge_scalar` performs on the payload
of one variant: keep the current value when the other is null, adopt when the
current is null, otherwise keep the larger (`if lt av bv then bv else av`). -/
def merge_opt {α : Type} (lt : α → α → Bool) (a b : Option α) : Option α :=
  match b with
  | none => a
  | some bv =>
      match a with
      | none => some bv
      | some av => if lt av bv then some bv else some av

/-- The value-level combination both correct paths use: keep the larger of
two values under the boolean comparison `lt`. -/
def keepLarger {α : Type} (lt : α → α → Bool) (x y : α) : α := if lt x y then y else x

/-- A boolean comparison that is a strict total order on the values satisfying
`P`: connected (neither-less implies equal), asymmetric and transitive. -/
def StrictCmp {α : Type} (lt : α → α → Bool) (P : α → Prop) : Prop :=
  (∀ x y, P x → P y → lt x y = false → lt y x = false → x = y) ∧
  (∀ x y, P x → P y → lt x y = true → lt y x = false) ∧
  (∀ x y z, P x → P y → P z → lt x y = true → lt y z = true → lt x z = true)

theorem keepLarger_closure {α : Type} (lt : α → α → Bool) (P : α → Prop)
    (x y : α) (hx : P x) (hy : P y) : P (keepLarger lt x y) := by
  unfold keepLarger; split <;> assumption

theorem keepLarger_comm {α : Type} {lt : α → α → Bool} {P : α → Prop}
    (h : StrictCmp lt P) (x y : α) (hx : P x) (hy : P y) :
    keepLarger lt x y = keepLarger lt y x := by
  obtain ⟨hconn, hasym, -⟩ := h
  unfold keepLarger
  cases hxy : lt x y <;> cases hyx : lt y x <;> simp
  · exact hconn x y hx hy hxy hyx
  · exact absurd (hasym x y hx hy hxy) (by simp [hyx])

theorem keepLarger_assoc {α : Type} {lt : α → α → Bool} {P : α → Prop}
    (h : StrictCmp lt P) (x y z : α) (hx : P x) (hy : P y) (hz : P z) :
    keepLarger lt (keepLarger lt x y) z = keepLarger lt x (keepLarger lt y z) := by
  obtain ⟨hconn, hasym, htrans⟩ := h
  unfold keepLarger
  cases hxy : lt x y <;> cases hyz : lt y z <;> simp [hxy, hyz]
  · cases hxz : lt x z <;> simp
    · cases hyx : lt y x
      · exact absurd hxz (by rw [hconn x y hx hy hxy hyx]; simp [hyz])
      · exact absurd (htrans y x z hy hx hz hyx hxz) (by simp [hyz])
  · cases hxz : lt x z <;> simp
    · exact absurd (htrans x y z hx hy hz hxy hyz) (by simp [hxz])

theorem merge_opt_none_right {α : Type} (lt : α → α → Bool) (x : Option α) :
    merge_opt lt x none = x := rfl

theorem merge_opt_none_left {α : Type} (lt : α → α → Bool) (y : Option α) :
    merge_opt lt none y = y := by cases y <;> rfl

theorem merge_opt_some_some {α : Type} (lt : α → α → Bool) (av bv : α) :
    merge_opt lt (some av) (some bv) = some (keepLarger lt av bv) := by
  cases hb : lt av bv <;> simp [merge_opt, keepLarger, hb]

/-- The three association/commutation shapes of the merge claim, at the level
of one variant's optional payload. -/
theorem merge_opt_threeway {α : Type} {lt : α → α → Bool} {P : α → Prop}
    (h : StrictCmp lt P) (x y z : Option α)
    (hx : ∀ v, x = some v → P v) (hy : ∀ v, y = some v → P v)
    (hz : ∀ v, z = some v → P v) :
    merge_opt lt (merge_opt lt x y) z = merge_opt lt x (merge_opt lt y z) ∧
    merge_opt lt (merge_opt lt x y) z = merge_opt lt (merge_opt lt x z) y := by
  refine ⟨?_, ?_⟩ <;> cases x <;> cases y <;> cases z <;>
    simp only [merge_opt_none_left, merge_opt_none_right, merge_opt_some_some]
  case' some.some.some =>
    rw [keepLarger_assoc h _ _ _ (hx _ rfl) (hy _ rfl) (hz _ rfl)]
  case' none.some.some =>
    rw [keepLarger_comm h _ _ (hy _ rfl) (hz _ rfl)]
  case' some.some.some =>
    rw [keepLarger_assoc h _ _ _ (hx _ rfl) (hy _ rfl) (hz _ rfl),
      keepLarger_comm h _ _ (hy _ rfl) (hz _ rfl),
      ← keepLarger_assoc h _ _ _ (hx _ rfl) (hz _ rfl) (hy _ rfl)]

theorem strictCmp_of_iff {α : Type} [LinearOrder α] (ltb : α → α → Bool)
    (hlt : ∀ a b, ltb a b = true ↔ a < b) : StrictCmp ltb (fun _ => True) := by
  refine ⟨?_, ?_, ?_⟩
  · intro x y _ _ hxy hyx
    rw [Bool.eq_false_iff, Ne, hlt, not_lt] at hxy hyx
    exact le_antisymm hyx hxy
  · intro x y _ _ hxy
    rw [hlt] at hxy
    rw [Bool.eq_false_iff, Ne, hlt, not_lt]
    exact le_of_lt hxy
  · intro x y z _ _ _ hxy hyz
    rw [hlt] at hxy hyz
    rw [hlt]
    exact lt_trans hxy hyz

theorem strictCmp_intLt : StrictCmp intLt (fun _ => True) :=
  strictCmp_of_iff intLt (fun a b => by simp [intLt])

theorem strictCmp_natLt : StrictCmp natLt (fun _ => True) :=
  strictCmp_of_iff natLt (fun a b => by simp [natLt])

theorem strictCmp_strLt : StrictCmp strLt (fun _ => True) :=
  strictCmp_of_iff strLt (fun a b => by simp [strLt])

theorem strictCmp_fpLt : StrictCmp Fp.lt (fun v => v ≠ Fp.nan) := by
  refine ⟨?_, ?_, ?_⟩
  · intro x y hx hy hxy hyx
    cases x with
    | nan => exact absurd rfl hx
    | num a =>
      cases y with
      | nan => exact absurd rfl hy
      | num b =>
        simp only [Fp.lt, decide_eq_false_iff_not, not_lt] at hxy hyx
        exact congrArg Fp.num (le_antisymm hyx hxy)
  · intro x y hx hy hxy
    cases x with
    | nan => simp [Fp.lt] at hxy
    | num a =>
      cases y with
      | nan => simp [Fp.lt] at hxy
      | num b =>
        simp only [Fp.lt, decide_eq_true_eq] at hxy
        simp only [Fp.lt, decide_eq_false_iff_not, not_lt]
        exact le_of_lt hxy
  · intro x y z hx hy hz hxy hyz
    cases x with
    | nan => simp [Fp.lt] at hxy
    | num a =>
      cases y with
      | nan => simp [Fp.lt] at hxy
      | num b =>
        cases z with
        | nan => simp [Fp.lt] at hyz
        | num c =>
          simp only [Fp.lt, decide_eq_true_eq] at hxy hyz
          simp only [Fp.lt, decide_eq_true_eq]
          exact lt_trans hxy hyz

theorem noNaN_payload32 {x : Option Fp} (h : (ScalarValue.Float32 x).noNaN = true) :
    ∀ v, x = some v → v ≠ Fp.nan := by
  intro v hv hnan
  subst hv; subst hnan
  simp [ScalarValue.noNaN] at h

theorem noNaN_payload64 {x : Option Fp} (h : (ScalarValue.Float64 x).noNaN = true) :
    ∀ v, x = some v → v ≠ Fp.nan := by
  intro v hv hnan
  subst hv; subst hnan
  simp [ScalarValue.noNaN] at h

/-- Sequencing of the claim expression `merge(merge(a,b),c)`: the first
merge's error, if any, propagates. -/
def merge3 (a b c : ScalarValue) : Except DFError ScalarValue :=
  match partial_merge_scalar a b with
  | Except.error e => Except.error e
  | Except.ok t => partial_merge_scalar t c

/-- Sequencing of the claim expression `merge(a, merge(b,c))`. -/
def merge3r (a b c : ScalarValue) : Except DFError ScalarValue :=
  match partial_merge_scalar b c with
  | Except.error e => Except.error e
  | Except.ok u => partial_merge_scalar a u

theorem merge_scalar_boolean_shape (a b : Option Bool) :
    partial_merge_scalar (ScalarValue.Boolean a) (ScalarValue.Boolean b) =
      (match b with
       | none => Except.ok (ScalarValue.Boolean a)
       | some bv =>
           match a with
           | none => Except.ok (ScalarValue.Boolean (some bv))
           | some av =>
               Except.error (unsupportedMaxError (ScalarValue.Boolean (some av)))) := by
  cases a <;> cases b <;> rfl

theorem merge_scalar_float32 (a b : Option Fp) :
    partial_merge_scalar (ScalarValue.Float32 a) (ScalarValue.Float32 b) =
      Except.ok (ScalarValue.Float32 (merge_opt Fp.lt a b)) := by
  cases a <;> cases b <;> rfl

theorem merge_scalar_float64 (a b : Option Fp) :
    partial_merge_scalar (ScalarValue.Float64 a) (ScalarValue.Float64 b) =
      Except.ok (ScalarValue.Float64 (merge_opt Fp.lt a b)) := by
  cases a <;> cases b <;> rfl

theorem merge_scalar_int8 (a b : Option Int) :
    partial_merge_scalar (ScalarValue.Int8 a) (ScalarValue.Int8 b) =
      Except.ok (ScalarValue.Int8 (merge_opt intLt a b)) := by
  cases a <;> cases b <;> rfl

theorem merge_scalar_int16 (a b : Option Int) :
    partial_merge_scalar (ScalarValue.Int16 a) (ScalarValue.Int16 b) =
      Except.ok (ScalarValue.Int16 (merge_opt intLt a b)) := by
  cases a <;> cases b <;> rfl

theorem merge_scalar_int32 (a b : Option Int) :
    partial_merge_scalar (ScalarValue.Int32 a) (ScalarValue.Int32 b) =
      Except.ok (ScalarValue.Int32 (merge_opt intLt a b)) := by
  cases a <;> cases b <;> rfl

theorem merge_scalar_int64 (a b : Option Int) :
    partial_merge_scalar (ScalarValue.Int64 a) (ScalarValue.Int64 b) =
      Except.ok (ScalarValue.Int64 (merge_opt intLt a b)) := by
  cases a <;> cases b <;> rfl

theorem merge_scalar_uint8 (a b : Option Nat) :
    partial_merge_scalar (ScalarValue.UInt8 a) (ScalarValue.UInt8 b) =
      Except.ok (ScalarValue.UInt8 (merge_opt natLt a b)) := by
  cases a <;> cases b <;> rfl

theorem merge_scalar_uint16 (a b : Option Nat) :
    partial_merge_scalar (ScalarValue.UInt16 a) (ScalarValue.UInt16 b) =
      Except.ok (ScalarValue.UInt16 (merge_opt natLt a b)) := by
  cases a <;> cases b <;> rfl

theorem merge_scalar_uint32 (a b : Option Nat) :
    partial_merge_scalar (ScalarValue.UInt32 a) (ScalarValue.UInt32 b) =
      Except.ok (ScalarValue.UInt32 (merge_opt natLt a b)) := by
  cases a <;> cases b <;> rfl

theorem merge_scalar_uint64 (a b : Option Nat) :
    partial_merge_scalar (ScalarValue.UInt64 a) (ScalarValue.UInt64 b) =
      Except.ok (ScalarValue.UInt64 (merge_opt natLt a b)) := by
  cases a <;> cases b <;> rfl

theorem merge_scalar_decimal (a b : Option Int) (p s : Nat) :
    partial_merge_scalar (ScalarValue.Decimal128 a p s) (ScalarValue.Decimal128 b p s) =
      Except.ok (ScalarValue.Decimal128 (merge_opt intLt a b) p s) := by
  cases a <;> cases b <;> rfl

theorem merge_scalar_utf8 (a b : Option String) :
    partial_merge_scalar (ScalarValue.Utf8 a) (ScalarValue.Utf8 b) =
      Except.ok (ScalarValue.Utf8 (merge_opt strLt a b)) := by
  cases a <;> cases b <;> rfl

theorem merge_scalar_date32 (a b : Option Int) :
    partial_merge_scalar (ScalarValue.Date32 a) (ScalarValue.Date32 b) =
      Except.ok (ScalarValue.Date32 (merge_opt intLt a b)) := by
  cases a <;> cases b <;> rfl

theorem merge_scalar_date64 (a b : Option Int) :
    partial_merge_scalar (ScalarValue.Date64 a) (ScalarValue.Date64 b) =
      Except.ok (ScalarValue.Date64 (merge_opt intLt a b)) := by
  cases a <;> cases b <;> rfl

theorem dt_inv_boolean (b : ScalarValue) (h : b.get_datatype = DataType.Boolean) :
    ∃ y, b = ScalarValue.Boolean y := by
  cases b <;> simp [ScalarValue.get_datatype] at h <;> exact ⟨_, rfl⟩

theorem dt_inv_float32 (b : ScalarValue) (h : b.get_datatype = DataType.Float32) :
    ∃ y, b = ScalarValue.Float32 y := by
  cases b <;> simp [ScalarValue.get_datatype] at h <;> exact ⟨_, rfl⟩

theorem dt_inv_float64 (b : ScalarValue) (h : b.get_datatype = DataType.Float64) :
    ∃ y, b = ScalarValue.Float64 y := by
  cases b <;> simp [ScalarValue.get_datatype] at h <;> exact ⟨_, rfl⟩

theorem dt_inv_int8 (b : ScalarValue) (h : b.get_datatype = DataType.Int8) :
    ∃ y, b = ScalarValue.Int8 y := by
  cases b <;> simp [ScalarValue.get_datatype] at h <;> exact ⟨_, rfl⟩

theorem dt_inv_int16 (b : ScalarValue) (h : b.get_datatype = DataType.Int16) :
    ∃ y, b = ScalarValue.Int16 y := by
  cases b <;> simp [ScalarValue.get_datatype] at h <;> exact ⟨_, rfl⟩

theorem dt_inv_int32 (b : ScalarValue) (h : b.get_datatype = DataType.Int32) :
    ∃ y, b = ScalarValue.Int32 y := by
  cases b <;> simp [ScalarValue.get_datatype] at h <;> exact ⟨_, rfl⟩

theorem dt_inv_int64 (b : ScalarValue) (h : b.get_datatype = DataType.Int64) :
    ∃ y, b = ScalarValue.Int64 y := by
  cases b <;> simp [ScalarValue.get_datatype] at h <;> exact ⟨_, rfl⟩

theorem dt_inv_uint8 (b : ScalarValue) (h : b.get_datatype = DataType.UInt8) :
    ∃ y, b = ScalarValue.UInt8 y := by
  cases b <;> simp [ScalarValue.get_datatype] at h <;> exact ⟨_, rfl⟩

theorem dt_inv_uint16 (b : ScalarValue) (h : b.get_datatype = DataType.UInt16) :
    ∃ y, b = ScalarValue.UInt16 y := by
  cases b <;> simp [ScalarValue.get_datatype] at h <;> exact ⟨_, rfl⟩

theorem dt_inv_uint32 (b : ScalarValue) (h : b.get_datatype = DataType.UInt32) :
    ∃ y, b = ScalarValue.UInt32 y := by
  cases b <;> simp [ScalarValue.get_datatype] at h <;> exact ⟨_, rfl⟩

theorem dt_inv_uint64 (b : ScalarValue) (h : b.get_datatype = DataType.UInt64) :
    ∃ y, b = ScalarValue.UInt64 y := by
  cases b <;> simp [ScalarValue.get_datatype] at h <;> exact ⟨_, rfl⟩

theorem dt_inv_utf8 (b : ScalarValue) (h : b.get_datatype = DataType.Utf8) :
    ∃ y, b = ScalarValue.Utf8 y := by
  cases b <;> simp [ScalarValue.get_datatype] at h <;> exact ⟨_, rfl⟩

theorem dt_inv_date32 (b : ScalarValue) (h : b.get_datatype = DataType.Date32) :
    ∃ y, b = ScalarValue.Date32 y := by
  cases b <;> simp [ScalarValue.get_datatype] at h <;> exact ⟨_, rfl⟩

theorem dt_inv_date64 (b : ScalarValue) (h : b.get_datatype = DataType.Date64) :
    ∃ y, b = ScalarValue.Date64 y := by
  cases b <;> simp [ScalarValue.get_datatype] at h <;> exact ⟨_, rfl⟩

theorem dt_inv_decimal (b : ScalarValue) (p s : Nat)
    (h : b.get_datatype = DataType.Decimal128 p s) :
    ∃ y, b = ScalarValue.Decimal128 y p s := by
  cases b <;> simp [ScalarValue.get_datatype] at h
  case Decimal128 y p2 s2 =>
    obtain ⟨rfl, rfl⟩ := h
    exact ⟨_, rfl⟩

/-- C3: amended — for three accumulators of one supported, merge-armed element
type (every supported type except boolean, whose merge arm is missing, see
C4), whose float states hold no NaN, the three merge shapes
`merge(merge(a,b),c)`, `merge(a,merge(b,c))` and `merge(merge(a,c),b)` all
succeed with the same resulting state. -/
theorem C3_merge_assoc_comm (a b c : ScalarValue)
    (hm : a.hasMergeArm = true)
    (hab : a.get_datatype = b.get_datatype)
    (hac : a.get_datatype = c.get_datatype)
    (hna : a.noNaN = true) (hnb : b.noNaN = true) (hnc : c.noNaN = true) :
    merge3 a b c = merge3r a b c ∧ merge3 a b c = merge3 a c b := by
  cases a with
  | Null => simp [ScalarValue.hasMergeArm, ScalarValue.isSupportedType] at hm
  | Boolean x => simp [ScalarValue.hasMergeArm] at hm
  | TimestampMicrosecond x =>
      simp [ScalarValue.hasMergeArm, ScalarValue.isSupportedType] at hm
  | Decimal128 x p s =>
      obtain ⟨y, rfl⟩ := dt_inv_decimal b p s hab.symm
      obtain ⟨z, rfl⟩ := dt_inv_decimal c p s hac.symm
      obtain ⟨h1, h2⟩ := merge_opt_threeway strictCmp_intLt x y z
        (fun _ _ => trivial) (fun _ _ => trivial) (fun _ _ => trivial)
      refine ⟨?_, ?_⟩ <;> simp only [merge3, merge3r, merge_scalar_decimal]
      · rw [h1]
      · rw [h2]
  | Float32 x =>
      obtain ⟨y, rfl⟩ := dt_inv_float32 b hab.symm
      obtain ⟨z, rfl⟩ := dt_inv_float32 c hac.symm
      obtain ⟨h1, h2⟩ := merge_opt_threeway strictCmp_fpLt x y z
        (noNaN_payload32 hna) (noNaN_payload32 hnb) (noNaN_payload32 hnc)
      refine ⟨?_, ?_⟩ <;> simp only [merge3, merge3r, merge_scalar_float32]
      · rw [h1]
      · rw [h2]
  | Float64 x =>
      obtain ⟨y, rfl⟩ := dt_inv_float64 b hab.symm
      obtain ⟨z, rfl⟩ := dt_inv_float64 c hac.symm
      obtain ⟨h1, h2⟩ := merge_opt_threeway strictCmp_fpLt x y z
        (noNaN_payload64 hna) (noNaN_payload64 hnb) (noNaN_payload64 hnc)
      refine ⟨?_, ?_⟩ <;> simp only [merge3, merge3r, merge_scalar_float64]
      · rw [h1]
      · rw [h2]
  | Int8 x =>
      obtain ⟨y, rfl⟩ := dt_inv_int8 b hab.symm
      obtain ⟨z, rfl⟩ := dt_inv_int8 c hac.symm
      obtain ⟨h1, h2⟩ := merge_opt_threeway strictCmp_intLt x y z
        (fun _ _ => trivial) (fun _ _ => trivial) (fun _ _ => trivial)
      refine ⟨?_, ?_⟩ <;> simp only [merge3, merge3r, merge_scalar_int8]
      · rw [h1]
      · rw [h2]
  | Int16 x =>
      obtain ⟨y, rfl⟩ := dt_inv_int16 b hab.symm
      obtain ⟨z, rfl⟩ := dt_inv_int16 c hac.symm
      obtain ⟨h1, h2⟩ := merge_opt_threeway strictCmp_intLt x y z
        (fun _ _ => trivial) (fun _ _ => trivial) (fun _ _ => trivial)
      refine ⟨?_, ?_⟩ <;> simp only [merge3, merge3r, merge_scalar_int16]
      · rw [h1]
      · rw [h2]
  | Int32 x =>
      obtain ⟨y, rfl⟩ := dt_inv_int32 b hab.symm
      obtain ⟨z, rfl⟩ := dt_inv_int32 c hac.symm
      obtain ⟨h1, h2⟩ := merge_opt_threeway strictCmp_intLt x y z
        (fun _ _ => trivial) (fun _ _ => trivial) (fun _ _ => trivial)
      refine ⟨?_, ?_⟩ <;> simp only [merge3, merge3r, merge_scalar_int32]
      · rw [h1]
      · rw [h2]
  | Int64 x =>
      obtain ⟨y, rfl⟩ := dt_inv_int64 b hab.symm
      obtain ⟨z, rfl⟩ := dt_inv_int64 c hac.symm
      obtain ⟨h1, h2⟩ := merge_opt_threeway strictCmp_intLt x y z
        (fun _ _ => trivial) (fun _ _ => trivial) (fun _ _ => trivial)
      refine ⟨?_, ?_⟩ <;> simp only [merge3, merge3r, merge_scalar_int64]
      · rw [h1]
      · rw [h2]
  | UInt8 x =>
      obtain ⟨y, rfl⟩ := dt_inv_uint8 b hab.symm
      obtain ⟨z, rfl⟩ := dt_inv_uint8 c hac.symm
      obtain ⟨h1, h2⟩ := merge_opt_threeway strictCmp_natLt x y z
        (fun _ _ => trivial) (fun _ _ => trivial) (fun _ _ => trivial)
      refine ⟨?_, ?_⟩ <;> simp only [merge3, merge3r, merge_scalar_uint8]
      · rw [h1]
      · rw [h2]
  | UInt16 x =>
      obtain ⟨y, rfl⟩ := dt_inv_uint16 b hab.symm
      obtain ⟨z, rfl⟩ := dt_inv_uint16 c hac.symm
      obtain ⟨h1, h2⟩ := merge_opt_threeway strictCmp_natLt x y z
        (fun _ _ => trivial) (fun _ _ => trivial) (fun _ _ => trivial)
      refine ⟨?_, ?_⟩ <;> simp only [merge3, merge3r, merge_scalar_uint16]
      · rw [h1]
      · rw [h2]
  | UInt32 x =>
      obtain ⟨y, rfl⟩ := dt_inv_uint32 b hab.symm
      obtain ⟨z, rfl⟩ := dt_inv_uint32 c hac.symm
      obtain ⟨h1, h2⟩ := merge_opt_threeway strictCmp_natLt x y z
        (fun _ _ => trivial) (fun _ _ => trivial) (fun _ _ => trivial)
      refine ⟨?_, ?_⟩ <;> simp only [merge3, merge3r, merge_scalar_uint32]
      · rw [h1]
      · rw [h2]
  | UInt64 x =>
      obtain ⟨y, rfl⟩ := dt_inv_uint64 b hab.symm
      obtain ⟨z, rfl⟩ := dt_inv_uint64 c hac.symm
      obtain ⟨h1, h2⟩ := merge_opt_threeway strictCmp_natLt x y z
        (fun _ _ => trivial) (fun _ _ => trivial) (fun _ _ => trivial)
      refine ⟨?_, ?_⟩ <;> simp only [merge3, merge3r, merge_scalar_uint64]
      · rw [h1]
      · rw [h2]
  | Utf8 x =>
      obtain ⟨y, rfl⟩ := dt_inv_utf8 b hab.symm
      obtain ⟨z, rfl⟩ := dt_inv_utf8 c hac.symm
      obtain ⟨h1, h2⟩ := merge_opt_threeway strictCmp_strLt x y z
        (fun _ _ => trivial) (fun _ _ => trivial) (fun _ _ => trivial)
      refine ⟨?_, ?_⟩ <;> simp only [merge3, merge3r, merge_scalar_utf8]
      · rw [h1]
      · rw [h2]
  | Date32 x =>
      obtain ⟨y, rfl⟩ := dt_inv_date32 b hab.symm
      obtain ⟨z, rfl⟩ := dt_inv_date32 c hac.symm
      obtain ⟨h1, h2⟩ := merge_opt_threeway strictCmp_intLt x y z
        (fun _ _ => trivial) (fun _ _ => trivial) (fun _ _ => trivial)
      refine ⟨?_, ?_⟩ <;> simp only [merge3, merge3r, merge_scalar_date32]
      · rw [h1]
      · rw [h2]
  | Date64 x =>
      obtain ⟨y, rfl⟩ := dt_inv_date64 b hab.symm
      obtain ⟨z, rfl⟩ := dt_inv_date64 c hac.symm
      obtain ⟨h1, h2⟩ := merge_opt_threeway strictCmp_intLt x y z
        (fun _ _ => trivial) (fun _ _ => trivial) (fun _ _ => trivial)
      refine ⟨?_, ?_⟩ <;> simp only [merge3, merge3r, merge_scalar_date64]
      · rw [h1]
      · rw [h2]

theorem foldl_arrow_max_step_all_null {α : Type} (lt : α → α → Bool)
    (data : List (Option α)) (h : data.all Option.isNone = true) (acc : Option α) :
    data.foldl (arrow_max_step lt) acc = acc := by
  induction data generalizing acc with
  | nil => rfl
  | cons hd tl ih =>
      simp only [List.all_cons, Bool.and_eq_true] at h
      obtain ⟨h1, h2⟩ := h
      have hhd : hd = none := Option.isNone_iff_eq_none.mp h1
      subst hhd
      exact ih h2 acc

/-- A column with no valid entry has no arrow maximum. -/
theorem arrow_max_all_null {α : Type} (lt : α → α → Bool) (data : List (Option α))
    (h : data.all Option.isNone = true) : arrow_max lt data = none :=
  foldl_arrow_max_step_all_null lt data h none

/-- C6: for two accumulators of one supported element type, merging a null
state in is a no-op, and merging into a null state yields the source's
state. -/
theorem C6_merge_identity (a b : ScalarValue)
    (hsupp : a.isSupportedType = true)
    (hdt : a.get_datatype = b.get_datatype) :
    (b.is_null = true → partial_merge_scalar a b = Except.ok a) ∧
    (a.is_null = true → partial_merge_scalar a b = Except.ok b) := by
  constructor
  · intro hb
    simp [partial_merge_scalar, hb]
  · intro ha
    cases a with
    | Null => exact absurd hsupp (by simp [ScalarValue.isSupportedType])
    | TimestampMicrosecond x => exact absurd hsupp (by simp [ScalarValue.isSupportedType])
    | Decimal128 x p s =>
        have hx : x = none := by
          simpa [ScalarValue.is_null, Option.isNone_iff_eq_none] using ha
        subst hx
        obtain ⟨y, rfl⟩ := dt_inv_decimal b p s hdt.symm
        cases y <;> rfl
    | Boolean x =>
        have hx : x = none := by
          simpa [ScalarValue.is_null, Option.isNone_iff_eq_none] using ha
        subst hx
        obtain ⟨y, rfl⟩ := dt_inv_boolean b hdt.symm
        cases y <;> rfl
    | Float32 x =>
        have hx : x = none := by
          simpa [ScalarValue.is_null, Option.isNone_iff_eq_none] using ha
        subst hx
        obtain ⟨y, rfl⟩ := dt_inv_float32 b hdt.symm
        cases y <;> rfl
    | Float64 x =>
        have hx : x = none := by
          simpa [ScalarValue.is_null, Option.isNone_iff_eq_none] using ha
        subst hx
        obtain ⟨y, rfl⟩ := dt_inv_float64 b hdt.symm
        cases y <;> rfl
    | Int8 x =>
        have hx : x = none := by
          simpa [ScalarValue.is_null, Option.isNone_iff_eq_none] using ha
        subst hx
        obtain ⟨y, rfl⟩ := dt_inv_int8 b hdt.symm
        cases y <;> rfl
    | Int16 x =>
        have hx : x = none := by
          simpa [ScalarValue.is_null, Option.isNone_iff_eq_none] using ha
        subst hx
        obtain ⟨y, rfl⟩ := dt_inv_int16 b hdt.symm
        cases y <;> rfl
    | Int32 x =>
        have hx : x = none := by
          simpa [ScalarValue.is_null, Option.isNone_iff_eq_none] using ha
        subst hx
        obtain ⟨y, rfl⟩ := dt_inv_int32 b hdt.symm
        cases y <;> rfl
    | Int64 x =>
        have hx : x = none := by
          simpa [ScalarValue.is_null, Option.isNone_iff_eq_none] using ha
        subst hx
        obtain ⟨y, rfl⟩ := dt_inv_int64 b hdt.symm
        cases y <;> rfl
    | UInt8 x =>
        have hx : x = none := by
          simpa [ScalarValue.is_null, Option.isNone_iff_eq_none] using ha
        subst hx
        obtain ⟨y, rfl⟩ := dt_inv_uint8 b hdt.symm
        cases y <;> rfl
    | UInt16 x =>
        have hx : x = none := by
          simpa [ScalarValue.is_null, Option.isNone_iff_eq_none] using ha
        subst hx
        obtain ⟨y, rfl⟩ := dt_inv_uint16 b hdt.symm
        cases y <;> rfl
    | UInt32 x =>
        have hx : x = none := by
          simpa [ScalarValue.is_null, Option.isNone_iff_eq_none] using ha
        subst hx
        obtain ⟨y, rfl⟩ := dt_inv_uint32 b hdt.symm
        cases y <;> rfl
    | UInt64 x =>
        have hx : x = none := by
          simpa [ScalarValue.is_null, Option.isNone_iff_eq_none] using ha
        subst hx
        obtain ⟨y, rfl⟩ := dt_inv_uint64 b hdt.symm
        cases y <;> rfl
    | Utf8 x =>
        have hx : x = none := by
          simpa [ScalarValue.is_null, Option.isNone_iff_eq_none] using ha
        subst hx
        obtain ⟨y, rfl⟩ := dt_inv_utf8 b hdt.symm
        cases y <;> rfl
    | Date32 x =>
        have hx : x = none := by
          simpa [ScalarValue.is_null, Option.isNone_iff_eq_none] using ha
        subst hx
        obtain ⟨y, rfl⟩ := dt_inv_date32 b hdt.symm
        cases y <;> rfl
    | Date64 x =>
        have hx : x = none := by
          simpa [ScalarValue.is_null, Option.isNone_iff_eq_none] using ha
        subst hx
        obtain ⟨y, rfl⟩ := dt_inv_date64 b hdt.symm
        cases y <;> rfl

/-- C7: a vectorized update with an all-null column of the matching type
leaves a null accumulator state unchanged, and saving that state appends a
null entry to the builder. -/
theorem C7_all_null_update (s : ScalarValue) (col b : ColumnArray)
    (hsupp : s.isSupportedType = true) (hnull : s.is_null = true)
    (hcol : colTypeMatches s col = true) (hall : colAllNull col = true)
    (hb : colTypeMatches s b = true) :
    partial_update_all s col = Except.ok s ∧ save_scalar s b = Except.ok (appendNull b) := by
  cases s with
  | Null => exact absurd hsupp (by simp [ScalarValue.isSupportedType])
  | TimestampMicrosecond x => exact absurd hsupp (by simp [ScalarValue.isSupportedType])
  | Decimal128 x p s =>
      have hx : x = none := by
        simpa [ScalarValue.is_null, Option.isNone_iff_eq_none] using hnull
      subst hx
      cases col <;> simp [colTypeMatches] at hcol
      cases b <;> simp [colTypeMatches] at hb
      rename_i d db
      refine ⟨?_, rfl⟩
      show Except.ok
          (ScalarValue.Decimal128 (update_all_handle intLt none (arrow_max intLt d)) p s) =
        Except.ok (ScalarValue.Decimal128 none p s)
      rw [arrow_max_all_null intLt d (by simpa [colAllNull] using hall)]
      rfl
  | Boolean x =>
      have hx : x = none := by
        simpa [ScalarValue.is_null, Option.isNone_iff_eq_none] using hnull
      subst hx
      cases col <;> simp [colTypeMatches] at hcol
      cases b <;> simp [colTypeMatches] at hb
      rename_i d db
      refine ⟨?_, rfl⟩
      show Except.ok (ScalarValue.Boolean (update_all_handle boolLt none (arrow_max boolLt d))) =
        Except.ok (ScalarValue.Boolean none)
      rw [arrow_max_all_null boolLt d (by simpa [colAllNull] using hall)]
      rfl
  | Float32 x =>
      have hx : x = none := by
        simpa [ScalarValue.is_null, Option.isNone_iff_eq_none] using hnull
      subst hx
      cases col <;> simp [colTypeMatches] at hcol
      cases b <;> simp [colTypeMatches] at hb
      rename_i d db
      refine ⟨?_, rfl⟩
      show Except.ok (ScalarValue.Float32 (update_all_handle Fp.lt none (arrow_max Fp.lt d))) =
        Except.ok (ScalarValue.Float32 none)
      rw [arrow_max_all_null Fp.lt d (by simpa [colAllNull] using hall)]
      rfl
  | Float64 x =>
      have hx : x = none := by
        simpa [ScalarValue.is_null, Option.isNone_iff_eq_none] using hnull
      subst hx
      cases col <;> simp [colTypeMatches] at hcol
      cases b <;> simp [colTypeMatches] at hb
      rename_i d db
      refine ⟨?_, rfl⟩
      show Except.ok (ScalarValue.Float64 (update_all_handle Fp.lt none (arrow_max Fp.lt d))) =
        Except.ok (ScalarValue.Float64 none)
      rw [arrow_max_all_null Fp.lt d (by simpa [colAllNull] using hall)]
      rfl
  | Int8 x =>
      have hx : x = none := by
        simpa [ScalarValue.is_null, Option.isNone_iff_eq_none] using hnull
      subst hx
      cases col <;> simp [colTypeMatches] at hcol
      cases b <;> simp [colTypeMatches] at hb
      rename_i d db
      refine ⟨?_, rfl⟩
      show Except.ok (ScalarValue.Int8 (update_all_handle intLt none (arrow_max intLt d))) =
        Except.ok (ScalarValue.Int8 none)
      rw [arrow_max_all_null intLt d (by simpa [colAllNull] using hall)]
      rfl
  | Int16 x =>
      have hx : x = none := by
        simpa [ScalarValue.is_null, Option.isNone_iff_eq_none] using hnull
      subst hx
      cases col <;> simp [colTypeMatches] at hcol
      cases b <;> simp [colTypeMatches] at hb
      rename_i d db
      refine ⟨?_, rfl⟩
      show Except.ok (ScalarValue.Int16 (update_all_handle intLt none (arrow_max intLt d))) =
        Except.ok (ScalarValue.Int16 none)
      rw [arrow_max_all_null intLt d (by simpa [colAllNull] using hall)]
      rfl
  | Int32 x =>
      have hx : x = none := by
        simpa [ScalarValue.is_null, Option.isNone_iff_eq_none] using hnull
      subst hx
      cases col <;> simp [colTypeMatches] at hcol
      cases b <;> simp [colTypeMatches] at hb
      rename_i d db
      refine ⟨?_, rfl⟩
      show Except.ok (ScalarValue.Int32 (update_all_handle intLt none (arrow_max intLt d))) =
        Except.ok (ScalarValue.Int32 none)
      rw [arrow_max_all_null intLt d (by simpa [colAllNull] using hall)]
      rfl
  | Int64 x =>
      have hx : x = none := by
        simpa [ScalarValue.is_null, Option.isNone_iff_eq_none] using hnull
      subst hx
      cases col <;> simp [colTypeMatches] at hcol
      cases b <;> simp [colTypeMatches] at hb
      rename_i d db
      refine ⟨?_, rfl⟩
      show Except.ok (ScalarValue.Int64 (update_all_handle intLt none (arrow_max intLt d))) =
        Except.ok (ScalarValue.Int64 none)
      rw [arrow_max_all_null intLt d (by simpa [colAllNull] using hall)]
      rfl
  | UInt8 x =>
      have hx : x = none := by
        simpa [ScalarValue.is_null, Option.isNone_iff_eq_none] using hnull
      subst hx
      cases col <;> simp [colTypeMatches] at hcol
      cases b <;> simp [colTypeMatches] at hb
      rename_i d db
      refine ⟨?_, rfl⟩
      show Except.ok (ScalarValue.UInt8 (update_all_handle natLt none (arrow_max natLt d))) =
        Except.ok (ScalarValue.UInt8 none)
      rw [arrow_max_all_null natLt d (by simpa [colAllNull] using hall)]
      rfl
  | UInt16 x =>
      have hx : x = none := by
        simpa [ScalarValue.is_null, Option.isNone_iff_eq_none] using hnull
      subst hx
      cases col <;> simp [colTypeMatches] at hcol
      cases b <;> simp [colTypeMatches] at hb
      rename_i d db
      refine ⟨?_, rfl⟩
      show Except.ok (ScalarValue.UInt16 (update_all_handle natLt none (arrow_max natLt d))) =
        Except.ok (ScalarValue.UInt16 none)
      rw [arrow_max_all_null natLt d (by simpa [colAllNull] using hall)]
      rfl
  | UInt32 x =>
      have hx : x = none := by
        simpa [ScalarValue.is_null, Option.isNone_iff_eq_none] using hnull
      subst hx
      cases col <;> simp [colTypeMatches] at hcol
      cases b <;> simp [colTypeMatches] at hb
      rename_i d db
      refine ⟨?_, rfl⟩
      show Except.ok (ScalarValue.UInt32 (update_all_handle natLt none (arrow_max natLt d))) =
        Except.ok (ScalarValue.UInt32 none)
      rw [arrow_max_all_null natLt d (by simpa [colAllNull] using hall)]
      rfl
  | UInt64 x =>
      have hx : x = none := by
        simpa [ScalarValue.is_null, Option.isNone_iff_eq_none] using hnull
      subst hx
      cases col <;> simp [colTypeMatches] at hcol
      cases b <;> simp [colTypeMatches] at hb
      rename_i d db
      refine ⟨?_, rfl⟩
      show Except.ok (ScalarValue.UInt64 (update_all_handle natLt none (arrow_max natLt d))) =
        Except.ok (ScalarValue.UInt64 none)
      rw [arrow_max_all_null natLt d (by simpa [colAllNull] using hall)]
      rfl
  | Utf8 x =>
      have hx : x = none := by
        simpa [ScalarValue.is_null, Option.isNone_iff_eq_none] using hnull
      subst hx
      cases col <;> simp [colTypeMatches] at hcol
      cases b <;> simp [colTypeMatches] at hb
      rename_i d db
      refine ⟨?_, rfl⟩
      show Except.ok (ScalarValue.Utf8 (update_all_handle strLt none (arrow_max strLt d))) =
        Except.ok (ScalarValue.Utf8 none)
      rw [arrow_max_all_null strLt d (by simpa [colAllNull] using hall)]
      rfl
  | Date32 x =>
      have hx : x = none := by
        simpa [ScalarValue.is_null, Option.isNone_iff_eq_none] using hnull
      subst hx
      cases col <;> simp [colTypeMatches] at hcol
      cases b <;> simp [colTypeMatches] at hb
      rename_i d db
      refine ⟨?_, rfl⟩
      show Except.ok (ScalarValue.Date32 (update_all_handle intLt none (arrow_max intLt d))) =
        Except.ok (ScalarValue.Date32 none)
      rw [arrow_max_all_null intLt d (by simpa [colAllNull] using hall)]
      rfl
  | Date64 x =>
      have hx : x = none := by
        simpa [ScalarValue.is_null, Option.isNone_iff_eq_none] using hnull
      subst hx
      cases col <;> simp [colTypeMatches] at hcol
      cases b <;> simp [colTypeMatches] at hb
      rename_i d db
      refine ⟨?_, rfl⟩
      show Except.ok (ScalarValue.Date64 (update_all_handle intLt none (arrow_max intLt d))) =
        Except.ok (ScalarValue.Date64 none)
      rw [arrow_max_all_null intLt d (by simpa [colAllNull] using hall)]
      rfl

/-- The serialize round trip of the claim: save the state into a fresh
builder of the accumulator's declared type, create a fresh accumulator of
that type, and merge row 0 of the saved column into it. -/
def save_merge_roundtrip (s : ScalarValue) : Except DFError ScalarValue :=
  match empty_builder s.get_datatype with
  | none => Except.error (DFError.Internal "no builder for this data type")
  | some b =>
      match save_scalar s b with
      | Except.error e => Except.error e
      | Except.ok col =>
          match create_accum s.get_datatype with
          | Except.error e => Except.error e
          | Except.ok fresh => partial_merge_from_array fresh col 0

/-- C8: for every supported element type and state, save followed by
merge-from-row into a fresh accumulator of the same declared type reproduces
the state. -/
theorem C8_save_roundtrip (s : ScalarValue) (hsupp : s.isSupportedType = true) :
    save_merge_roundtrip s = Except.ok s := by
  cases s with
  | Null => exact absurd hsupp (by simp [ScalarValue.isSupportedType])
  | TimestampMicrosecond x => exact absurd hsupp (by simp [ScalarValue.isSupportedType])
  | Decimal128 x p s => cases x <;> rfl
  | Boolean x => cases x <;> rfl
  | Float32 x => cases x <;> rfl
  | Float64 x => cases x <;> rfl
  | Int8 x => cases x <;> rfl
  | Int16 x => cases x <;> rfl
  | Int32 x => cases x <;> rfl
  | Int64 x => cases x <;> rfl
  | UInt8 x => cases x <;> rfl
  | UInt16 x => cases x <;> rfl
  | UInt32 x => cases x <;> rfl
  | UInt64 x => cases x <;> rfl
  | Utf8 x => cases x <;> rfl
  | Date32 x => cases x <;> rfl
  | Date64 x => cases x <;> rfl

theorem dec_update_shape (v : Option Int) (p s : Nat) (col : ColumnArray) (i : Nat)
    (t : ScalarValue)
    (h : partial_update (ScalarValue.Decimal128 v p s) col i = Except.ok t) :
    ∃ w, t = ScalarValue.Decimal128 w p s := by
  cases col <;> first
    | exact Except.noConfusion h
    | (injection h with h2; exact ⟨_, h2.symm⟩)

theorem dec_update_all_shape (v : Option Int) (p s : Nat) (col : ColumnArray)
    (t : ScalarValue)
    (h : partial_update_all (ScalarValue.Decimal128 v p s) col = Except.ok t) :
    ∃ w, t = ScalarValue.Decimal128 w p s := by
  cases col <;> first
    | exact Except.noConfusion h
    | (injection h with h2; exact ⟨_, h2.symm⟩)

theorem dec_merge_shape (v : Option Int) (p s : Nat) (a : ScalarValue) (t : ScalarValue)
    (hok : decimalOpOk p s (AggOp.mergeScalar a) = true)
    (h : partial_merge_scalar (ScalarValue.Decimal128 v p s) a = Except.ok t) :
    ∃ w, t = ScalarValue.Decimal128 w p s := by
  cases a with
  | Null => injection h with h2; exact ⟨_, h2.symm⟩
  | Decimal128 y p2 s2 =>
      cases y with
      | none => injection h with h2; exact ⟨_, h2.symm⟩
      | some yv =>
          simp only [decimalOpOk, ScalarValue.is_null, Option.isNone, Bool.false_or,
            Bool.and_eq_true, beq_iff_eq] at hok
          obtain ⟨rfl, rfl⟩ := hok
          rw [merge_scalar_decimal] at h
          injection h with h2
          exact ⟨_, h2.symm⟩
  | Boolean y =>
      cases y with
      | none => injection h with h2; exact ⟨_, h2.symm⟩
      | some yv => simp [decimalOpOk, ScalarValue.is_null] at hok
  | Float32 y =>
      cases y with
      | none => injection h with h2; exact ⟨_, h2.symm⟩
      | some yv => simp [decimalOpOk, ScalarValue.is_null] at hok
  | Float64 y =>
      cases y with
      | none => injection h with h2; exact ⟨_, h2.symm⟩
      | some yv => simp [decimalOpOk, ScalarValue.is_null] at hok
  | Int8 y =>
      cases y with
      | none => injection h with h2; exact ⟨_, h2.symm⟩
      | some yv => simp [decimalOpOk, ScalarValue.is_null] at hok
  | Int16 y =>
      cases y with
      | none => injection h with h2; exact ⟨_, h2.symm⟩
      | some yv => simp [decimalOpOk, ScalarValue.is_null] at hok
  | Int32 y =>
      cases y with
      | none => injection h with h2; exact ⟨_, h2.symm⟩
      | some yv => simp [decimalOpOk, ScalarValue.is_null] at hok
  | Int64 y =>
      cases y with
      | none => injection h with h2; exact ⟨_, h2.symm⟩
      | some yv => simp [decimalOpOk, ScalarValue.is_null] at hok
  | UInt8 y =>
      cases y with
      | none => injection h with h2; exact ⟨_, h2.symm⟩
      | some yv => simp [decimalOpOk, ScalarValue.is_null] at hok
  | UInt16 y =>
      cases y with
      | none => injection h with h2; exact ⟨_, h2.symm⟩
      | some yv => simp [decimalOpOk, ScalarValue.is_null] at hok
  | UInt32 y =>
      cases y with
      | none => injection h with h2; exact ⟨_, h2.symm⟩
      | some yv => simp [decimalOpOk, ScalarValue.is_null] at hok
  | UInt64 y =>
      cases y with
      | none => injection h with h2; exact ⟨_, h2.symm⟩
      | some yv => simp [decimalOpOk, ScalarValue.is_null] at hok
  | Utf8 y =>
      cases y with
      | none => injection h with h2; exact ⟨_, h2.symm⟩
      | some yv => simp [decimalOpOk, ScalarValue.is_null] at hok
  | Date32 y =>
      cases y with
      | none => injection h with h2; exact ⟨_, h2.symm⟩
      | some yv => simp [decimalOpOk, ScalarValue.is_null] at hok
  | Date64 y =>
      cases y with
      | none => injection h with h2; exact ⟨_, h2.symm⟩
      | some yv => simp [decimalOpOk, ScalarValue.is_null] at hok
  | TimestampMicrosecond y =>
      cases y with
      | none => injection h with h2; exact ⟨_, h2.symm⟩
      | some yv => simp [decimalOpOk, ScalarValue.is_null] at hok

theorem dec_merge_from_array_shape (v : Option Int) (p s : Nat) (col : ColumnArray)
    (i : Nat) (t : ScalarValue)
    (h : partial_merge_from_array (ScalarValue.Decimal128 v p s) col i = Except.ok t) :
    ∃ w, t = ScalarValue.Decimal128 w p s := by
  cases col with
  | Decimal128Array d =>
      have h2 : partial_merge_scalar (ScalarValue.Decimal128 v p s)
          (ScalarValue.Decimal128 (arrayGet d i) p s) = Except.ok t := h
      rw [merge_scalar_decimal] at h2
      injection h2 with h3
      exact ⟨_, h3.symm⟩
  | _ => exact Except.noConfusion h

theorem dec_runOps_shape (ops : List AggOp) :
    ∀ (v : Option Int) (p s : Nat) (t : ScalarValue),
      (∀ op ∈ ops, decimalOpOk p s op = true) →
      runOps (ScalarValue.Decimal128 v p s) ops = Except.ok t →
      ∃ w, t = ScalarValue.Decimal128 w p s := by
  induction ops with
  | nil =>
      intro v p s t _ h
      injection h with h2
      exact ⟨_, h2.symm⟩
  | cons op ops ih =>
      intro v p s t hok hrun
      have hop := hok op (List.mem_cons_self op ops)
      have hops : ∀ o ∈ ops, decimalOpOk p s o = true :=
        fun o ho => hok o (List.mem_cons_of_mem op ho)
      cases hstep : runOp (ScalarValue.Decimal128 v p s) op with
      | error e =>
          rw [runOps, List.foldlM_cons, hstep] at hrun
          exact Except.noConfusion hrun
      | ok s1 =>
          rw [runOps, List.foldlM_cons, hstep] at hrun
          have hrun2 : runOps s1 ops = Except.ok t := hrun
          obtain ⟨w, rfl⟩ : ∃ w, s1 = ScalarValue.Decimal128 w p s := by
            cases op with
            | update c i => exact dec_update_shape v p s c i s1 hstep
            | updateAll c => exact dec_update_all_shape v p s c s1 hstep
            | mergeScalar a2 => exact dec_merge_shape v p s a2 s1 hop hstep
            | mergeFromArray c i => exact dec_merge_from_array_shape v p s c i s1 hstep
          exact ih w p s t hops hrun2

/-- Whether a datafusion `Result` is `Ok`. -/
def exceptIsOk {ε α : Type} : Except ε α → Bool
  | Except.ok _ => true
  | Except.error _ => false

/-- C1: evaluating the row-wise update at the spec's own scenario — an `Int32`
accumulator starting `Empty` fed `[3, null, 7, 2]` — yields `Holding(2)`, not
the claimed `Holding(7)`: the numeric `handle!` of `partial_update` replaces
the state when the new value is *smaller* (`new < current`), computing a
minimum. -/
theorem C1_row_update_keeps_smaller :
    updateRows (ScalarValue.Int32 none)
        (ColumnArray.Int32Array [some 3, none, some 7, some 2]) [0, 1, 2, 3] =
      Except.ok (ScalarValue.Int32 (some 2)) ∧
    ScalarValue.Int32 (some 2) ≠ ScalarValue.Int32 (some 7) :=
  ⟨rfl, by decide⟩

/-- C2: on the `Int32` column `[3, 7]` from the `Empty` state, the vectorized
update yields `Holding(7)` while folding the row-wise update yields
`Holding(3)` — the two paths disagree, because `partial_update` keeps the
smaller value while `partial_update_all` keeps the larger. -/
theorem C2_vectorized_vs_rowwise_diverge :
    partial_update_all (ScalarValue.Int32 none)
        (ColumnArray.Int32Array [some 3, some 7]) =
      Except.ok (ScalarValue.Int32 (some 7)) ∧
    updateRows (ScalarValue.Int32 none) (ColumnArray.Int32Array [some 3, some 7]) [0, 1] =
      Except.ok (ScalarValue.Int32 (some 3)) ∧
    ScalarValue.Int32 (some 7) ≠ ScalarValue.Int32 (some 3) :=
  ⟨rfl, rfl, by decide⟩

/-- C3 counterexample: with `a = Empty`, `b = Holding(1.0)`, `c =
Holding(NaN)` (all `Float64`), `merge(merge(a,b),c)` holds `1.0` but
`merge(merge(a,c),b)` holds `NaN`: the claimed equality of the three merge
shapes fails when a NaN state is involved, since an `Empty` state adopts NaN
but NaN never replaces (and is never replaced by) a held value. -/
theorem C3_nan_counterexample :
    merge3 (ScalarValue.Float64 none) (ScalarValue.Float64 (some (Fp.num 1)))
        (ScalarValue.Float64 (some Fp.nan)) =
      Except.ok (ScalarValue.Float64 (some (Fp.num 1))) ∧
    merge3 (ScalarValue.Float64 none) (ScalarValue.Float64 (some Fp.nan))
        (ScalarValue.Float64 (some (Fp.num 1))) =
      Except.ok (ScalarValue.Float64 (some Fp.nan)) ∧
    ScalarValue.Float64 (some (Fp.num 1)) ≠ ScalarValue.Float64 (some Fp.nan) :=
  ⟨rfl, rfl, by decide⟩

/-- C3 witness at a concrete input: `Int64` accumulators holding `5`, null
and `9`. -/
theorem C3_merge_assoc_comm_witness :
    merge3 (ScalarValue.Int64 (some 5)) (ScalarValue.Int64 none)
        (ScalarValue.Int64 (some 9)) =
      merge3r (ScalarValue.Int64 (some 5)) (ScalarValue.Int64 none)
        (ScalarValue.Int64 (some 9)) ∧
    merge3 (ScalarValue.Int64 (some 5)) (ScalarValue.Int64 none)
        (ScalarValue.Int64 (some 9)) =
      merge3 (ScalarValue.Int64 (some 5)) (ScalarValue.Int64 (some 9))
        (ScalarValue.Int64 none) :=
  C3_merge_assoc_comm (ScalarValue.Int64 (some 5)) (ScalarValue.Int64 none)
    (ScalarValue.Int64 (some 9)) rfl rfl rfl rfl rfl rfl

/-- C4: merging two non-null boolean accumulators does not keep the larger
value — it fails with the unsupported-type error, because
`partial_merge_scalar`'s match has no `Boolean` arm; moreover the row-wise
update path keeps `false` over `true` (its numeric comparison direction),
so the boolean rules are not uniform across the three paths. -/
theorem C4_boolean_merge_errors :
    partial_merge_scalar (ScalarValue.Boolean (some true))
        (ScalarValue.Boolean (some false)) =
      Except.error (DFError.NotImplemented "unsupported data type in max(): true") ∧
    partial_update (ScalarValue.Boolean (some true))
        (ColumnArray.BooleanArray [some false]) 0 =
      Except.ok (ScalarValue.Boolean (some false)) :=
  ⟨rfl, rfl⟩

/-- C5 counterexample: `create_accum` *can* fail — a declared type with no
scalar null representation (`Float16` in this datafusion version) makes the
`try_into()?` in `create_accum` return an error at construction. -/
theorem C5_create_accum_float16_fails :
    create_accum DataType.Float16 =
      Except.error
        (DFError.NotImplemented "Can't create a scalar from data_type Float16") :=
  rfl

/-- C5 amended: construction succeeds exactly for declared types with a
scalar representation; for such a representable but max-unsupported type
(timestamp), construction succeeds and the first update fails with the
`NotImplemented` max error — whose message displays the current (null) state,
`NULL`, rather than the type name — while the first *merge* into the fresh
accumulator silently adopts the other value, and only a merge between two
non-null unsupported states fails. -/
theorem C5_lazy_unsupported_detection :
    (∀ dt : DataType, exceptIsOk (create_accum dt) = !(dt == DataType.Float16)) ∧
    create_accum DataType.Timestamp =
      Except.ok (ScalarValue.TimestampMicrosecond none) ∧
    (∀ (values : ColumnArray) (i : Nat),
      partial_update (ScalarValue.TimestampMicrosecond none) values i =
        Except.error
          (DFError.NotImplemented "unsupported data type in max(): NULL")) ∧
    (∀ values : ColumnArray,
      partial_update_all (ScalarValue.TimestampMicrosecond none) values =
        Except.error
          (DFError.NotImplemented "unsupported data type in max(): NULL")) ∧
    partial_merge_scalar (ScalarValue.TimestampMicrosecond none)
        (ScalarValue.TimestampMicrosecond (some 1)) =
      Except.ok (ScalarValue.TimestampMicrosecond (some 1)) ∧
    partial_merge_scalar (ScalarValue.TimestampMicrosecond (some 1))
        (ScalarValue.TimestampMicrosecond (some 2)) =
      Except.error (DFError.NotImplemented "unsupported data type in max(): 1") := by
  refine ⟨fun dt => ?_, rfl, fun values i => rfl, fun values => rfl, rfl, rfl⟩
  cases dt <;> rfl

/-- C6 witness at a concrete input: an `Empty` `Utf8` accumulator and one
holding `"apple"`. -/
theorem C6_merge_identity_witness :
    ((ScalarValue.Utf8 (some "apple")).is_null = true →
      partial_merge_scalar (ScalarValue.Utf8 none) (ScalarValue.Utf8 (some "apple")) =
        Except.ok (ScalarValue.Utf8 none)) ∧
    ((ScalarValue.Utf8 none).is_null = true →
      partial_merge_scalar (ScalarValue.Utf8 none) (ScalarValue.Utf8 (some "apple")) =
        Except.ok (ScalarValue.Utf8 (some "apple"))) :=
  C6_merge_identity (ScalarValue.Utf8 none) (ScalarValue.Utf8 (some "apple")) rfl rfl

/-- C7 witness at the spec's concrete scenario: an `Empty` `Int32`
accumulator and the column `[null, null]`. -/
theorem C7_all_null_update_witness :
    partial_update_all (ScalarValue.Int32 none) (ColumnArray.Int32Array [none, none]) =
      Except.ok (ScalarValue.Int32 none) ∧
    save_scalar (ScalarValue.Int32 none) (ColumnArray.Int32Array []) =
      Except.ok (appendNull (ColumnArray.Int32Array [])) :=
  C7_all_null_update (ScalarValue.Int32 none) (ColumnArray.Int32Array [none, none])
    (ColumnArray.Int32Array []) rfl rfl rfl rfl rfl

/-- C8 witness at a concrete input: a decimal state holding raw `1050` with
precision 10 and scale 2. -/
theorem C8_save_roundtrip_witness :
    save_merge_roundtrip (ScalarValue.Decimal128 (some 1050) 10 2) =
      Except.ok (ScalarValue.Decimal128 (some 1050) 10 2) :=
  C8_save_roundtrip (ScalarValue.Decimal128 (some 1050) 10 2) rfl

/-- C9 counterexample: the null-adopting branch of `partial_merge_scalar`
replaces the whole scalar, precision and scale included — merging a decimal
of precision 7 / scale 3 into an `Empty` decimal accumulator constructed with
precision 10 / scale 2 leaves a state whose precision is no longer 10. -/
theorem C9_merge_adopts_foreign_scale :
    partial_merge_scalar (ScalarValue.Decimal128 none 10 2)
        (ScalarValue.Decimal128 (some 5) 7 3) =
      Except.ok (ScalarValue.Decimal128 (some 5) 7 3) ∧
    decimalPrecision (ScalarValue.Decimal128 (some 5) 7 3) ≠ some 10 ∧
    decimalScale (ScalarValue.Decimal128 (some 5) 7 3) ≠ some 2 :=
  ⟨rfl, by decide, by decide⟩

/-- C9 amended: under the engine-level invariant that every merged-in scalar
is null or a decimal of the accumulator's own precision and scale, any
sequence of update and merge calls that succeeds leaves the precision and
scale fixed at construction (update and merge-from-row calls need no side
condition: a mismatched column type errors out instead). -/
theorem C9_decimal_precision_scale (v : Option Int) (p s : Nat) (ops : List AggOp)
    (t : ScalarValue) (hok : ∀ op ∈ ops, decimalOpOk p s op = true)
    (hrun : runOps (ScalarValue.Decimal128 v p s) ops = Except.ok t) :
    decimalPrecision t = some p ∧ decimalScale t = some s := by
  obtain ⟨w, rfl⟩ := dec_runOps_shape ops v p s t hok hrun
  exact ⟨rfl, rfl⟩

/-- C9 witness: a decimal accumulator of precision 10 / scale 2 driven
through a merge, a row update, a vectorized update and a merge-from-row. -/
theorem C9_decimal_precision_scale_witness :
    decimalPrecision (ScalarValue.Decimal128 (some 999) 10 2) = some 10 ∧
    decimalScale (ScalarValue.Decimal128 (some 999) 10 2) = some 2 :=
  C9_decimal_precision_scale none 10 2
    [AggOp.mergeScalar (ScalarValue.Decimal128 (some 1050) 10 2),
     AggOp.update (ColumnArray.Decimal128Array [some 999]) 0,
     AggOp.updateAll (ColumnArray.Decimal128Array [some 42]),
     AggOp.mergeFromArray (ColumnArray.Decimal128Array [some 7]) 0]
    (ScalarValue.Decimal128 (some 999) 10 2) (by decide) rfl

/-- C10: for an accumulator whose declared type is `Null`, both update paths
are silent no-ops returning `Ok` for any input column, and never reach the
unsupported-type error arm. -/
theorem C10_null_type_noop :
    ∀ (values : ColumnArray) (i : Nat),
      partial_update ScalarValue.Null values i = Except.ok ScalarValue.Null ∧
      partial_update_all ScalarValue.Null values = Except.ok ScalarValue.Null :=
  fun _ _ => ⟨rfl, rfl⟩
